import Mathlib

/-!
Verification of the taskwarrior-ng MCP server core
(apps/mcp-server/src: utils/models.py, utils/filters.py, utils/taskwarrior.py,
tools/basic_operations.py, tools/batch_operations.py, tools/metadata_operations.py).

The Python code is shallowly embedded: datetimes become a wall-clock/offset pair,
the taskwarrior store becomes a list of task records, tasklib accessors become
list lookups, and every tool function becomes a pure function returning the
structured response mapping (and the updated store, where the tool mutates it).
A Python exception that escapes a function is an `Except.error` value.
-/

namespace TaskwarriorNG

/-! ## Python datetime model

A `datetime` value is a wall-clock reading plus an optional UTC offset
(`tzinfo`).  Minutes are used as the unit of both the wall clock and the
offset; `tz = none` models a naive datetime. -/

structure DT where
  wall : Int
  tz : Option Int
deriving DecidableEq

/-- Python `dt.astimezone(target)`: keep the instant, re-express the wall
clock in the target offset.  A naive receiver is interpreted as local time
(`naiveOff`), which is how Python treats it. -/
def DT.astimezone (d : DT) (naiveOff newOff : Int) : DT :=
  { wall := d.wall - d.tz.getD naiveOff + newOff, tz := some newOff }

/-- Python `dt.replace(tzinfo=off)`: attach an offset without touching the
wall clock. -/
def DT.withTz (d : DT) (off : Int) : DT := { d with tz := some off }

/-- Two-digit zero-padded decimal rendering (for offset hours/minutes). -/
def pad2 (n : Nat) : List Char :=
  if n < 10 then '0' :: Nat.toDigits 10 n else Nat.toDigits 10 n

/-- The `±HH:MM` utcoffset suffix Python's `datetime.isoformat` appends to an
aware datetime. -/
def offChars (o : Int) : List Char :=
  (if o < 0 then '-' else '+') :: (pad2 (o.natAbs / 60) ++ ':' :: pad2 (o.natAbs % 60))

/-- Decimal rendering of an integer. -/
def intChars (i : Int) : List Char :=
  if i < 0 then '-' :: Nat.toDigits 10 i.natAbs else Nat.toDigits 10 i.natAbs

/-- Python `dt.isoformat()`.  The calendar rendering of the wall-clock part is
abstracted to the decimal minute count (it is injective, which is all that
matters here); the offset suffix follows Python exactly: absent for a naive
datetime, `±HH:MM` for an aware one. -/
def DT.isoChars (d : DT) : List Char :=
  intChars d.wall ++ (match d.tz with | none => [] | some o => offChars o)

/-- `s.take n == pat` test used by `replaceOnce`. -/
def startsList (pat s : List Char) : Bool := s.take pat.length == pat

/-- Python `str.replace(pat, rep)` restricted to strings that contain at most
one occurrence of `pat` — the only use in the source is replacing the
`+00:00` offset suffix of an isoformat string, which occurs at most once. -/
def replaceOnce (pat rep : List Char) : List Char → List Char
  | [] => []
  | c :: rest =>
    if startsList pat (c :: rest) then rep ++ (c :: rest).drop pat.length
    else c :: replaceOnce pat rep rest

def plusZero : List Char := ['+', '0', '0', ':', '0', '0']

/-- `TaskModel.to_utc_dict.format_datetime` (utils/models.py:178-185), with the
process-local UTC offset `localOff` (Python obtains it as
`datetime.now().astimezone().tzinfo`) made explicit:

    if dt is None: return None
    if dt.tzinfo is None:
        dt = dt.replace(tzinfo=datetime.now().astimezone().tzinfo)
    utc_dt = dt.astimezone(datetime.now().astimezone().tzinfo)
    return utc_dt.isoformat().replace('+00:00', 'Z')

Note the `astimezone` argument in the source is the local timezone, not UTC,
even though the variable is named `utc_dt`. -/
def format_datetime (localOff : Int) : Option DT → Option String
  | none => none
  | some dt0 =>
    let dt := if dt0.tz = none then dt0.withTz localOff else dt0
    let utc_dt := dt.astimezone localOff localOff
    some (String.mk (replaceOnce plusZero ['Z'] utc_dt.isoChars))

/-- `s` ends with the character `Z`. -/
def endsInZ (s : String) : Bool := s.data.getLast? == some 'Z'

/-! ## TaskModel (utils/models.py) -/

/-- `TaskAnnotation` (utils/models.py:83-86). -/
structure TaskAnnot where
  entry : Option DT := none
  description : String := ""
deriving DecidableEq

/-- `TaskModel` (utils/models.py:88-121).  `urgency` is a float score that the
code only stores and re-emits, never computes with, so an integer carrier is
used.  `endT`/`untilT` model the `end`/`until` keys (`end` is a Lean keyword). -/
structure TaskModel where
  id : Option Int := none
  uuid : Option String := none
  description : String := ""
  status : String := "pending"
  project : Option String := none
  priority : Option String := none
  tags : List String := []
  urgency : Int := 0
  entry : Option DT := none
  modified : Option DT := none
  due : Option DT := none
  start : Option DT := none
  endT : Option DT := none
  wait : Option DT := none
  untilT : Option DT := none
  annotations : List TaskAnnot := []
  depends : List String := []
  recur : Option String := none
deriving DecidableEq

/-- A serialized annotation inside the wire dictionary. -/
structure AnnDict where
  entry : Option String
  description : String
deriving DecidableEq

/-- The dictionary produced by `TaskModel.to_utc_dict` (`model_dump()` with the
datetime fields replaced by formatted strings). -/
structure TaskDict where
  id : Option Int
  uuid : Option String
  description : String
  status : String
  project : Option String
  priority : Option String
  tags : List String
  urgency : Int
  entry : Option String
  modified : Option String
  due : Option String
  start : Option String
  endT : Option String
  wait : Option String
  untilT : Option String
  annotations : List AnnDict
  depends : List String
  recur : Option String
deriving DecidableEq

/-- `TaskModel.to_utc_dict` (utils/models.py:171-201): `model_dump()` then
`format_datetime` applied to the seven datetime fields and to each
annotation's `entry`. -/
def TaskModel.to_utc_dict (localOff : Int) (m : TaskModel) : TaskDict :=
  { id := m.id, uuid := m.uuid, description := m.description, status := m.status,
    project := m.project, priority := m.priority, tags := m.tags, urgency := m.urgency,
    entry := format_datetime localOff m.entry,
    modified := format_datetime localOff m.modified,
    due := format_datetime localOff m.due,
    start := format_datetime localOff m.start,
    endT := format_datetime localOff m.endT,
    wait := format_datetime localOff m.wait,
    untilT := format_datetime localOff m.untilT,
    annotations := m.annotations.map (fun a => ⟨format_datetime localOff a.entry, a.description⟩),
    depends := m.depends, recur := m.recur }

/-! ## The taskwarrior store and tasklib surface

A store record as tasklib hands it to this code: typed fields (tasklib
deserializes the on-disk representation).  `tags`/`depends` are Python sets,
modeled as `Finset String`. -/

structure Task where
  id : Option Int := none
  uuid : String := ""
  description : String := ""
  status : String := "pending"
  project : Option String := none
  priority : Option String := none
  tags : Finset String := ∅
  urgency : Int := 0
  entry : Option DT := none
  modified : Option DT := none
  due : Option DT := none
  start : Option DT := none
  endT : Option DT := none
  wait : Option DT := none
  untilT : Option DT := none
  annotations : List TaskAnnot := []
  depends : Finset String := ∅
  recur : Option String := none
deriving DecidableEq

abbrev Store := List Task

/-- `tw.tasks.get(id=i)`: the record whose numeric id is `i`, or
`Task.DoesNotExist` (modeled as `none`). -/
def twGetById (s : Store) (i : Int) : Option Task :=
  s.find? (fun t => t.id == some i)

/-- `tw.tasks.get(uuid=u)`. -/
def twGetByUuid (s : Store) (u : String) : Option Task :=
  s.find? (fun t => t.uuid == u)

/-- `task.save()` after mutating the task object: the stored record with uuid
`u` is replaced by `f` applied to it. -/
def storeSave (s : Store) (u : String) (f : Task → Task) : Store :=
  s.map (fun t => if t.uuid == u then f t else t)

/-- tasklib `Task.done()`: the status transition (tasklib also stamps `end`;
no claim reads that field). -/
def Task.done (t : Task) : Task := { t with status := "completed" }

/-- tasklib `Task.delete()`: the status transition. -/
def Task.del (t : Task) : Task := { t with status := "deleted" }

/-- tasklib `Task.start()`: begins time tracking at the current instant. -/
def Task.startTracking (now : DT) (t : Task) : Task := { t with start := some now }

/-- tasklib `Task.stop()`: ends time tracking. -/
def Task.stopTracking (t : Task) : Task := { t with start := none }

/-- `TaskModel.from_taskwarrior_task` specialized to a well-typed store record
(every `safe_get` returns the typed tasklib value, every pydantic validator
accepts it).  The Python set fields come back as lists; a set's iteration
order is unspecified, so the embedding fixes the sorted order. -/
def Task.toModel (t : Task) : TaskModel :=
  { id := t.id, uuid := some t.uuid, description := t.description, status := t.status,
    project := t.project, priority := t.priority,
    tags := t.tags.sort (· ≤ ·), urgency := t.urgency,
    entry := t.entry, modified := t.modified, due := t.due, start := t.start,
    endT := t.endT, wait := t.wait, untilT := t.untilT,
    annotations := t.annotations, depends := t.depends.sort (· ≤ ·), recur := t.recur }

/-- `task_to_dict` (utils/taskwarrior.py:35-43):
`TaskModel.from_taskwarrior_task(task).to_utc_dict()`. -/
def task_to_dict (localOff : Int) (t : Task) : TaskDict :=
  t.toModel.to_utc_dict localOff

/-! ## Python truthiness of the optional parameters -/

/-- `if task_id:` — `None` and `0` are falsy. -/
def truthyIdOpt : Option Int → Bool
  | none => false
  | some n => n != 0

/-- `if uuid:` — `None` and `""` are falsy. -/
def truthyStrOpt : Option String → Bool
  | none => false
  | some s => s != ""

/-- `if tags:` — `None` and `[]` are falsy. -/
def truthyListOpt {α : Type} : Option (List α) → Bool
  | none => false
  | some l => !l.isEmpty

/-- Rendering of an `Optional[int]` inside an f-string (`None` prints as
`None`). -/
def pyShowOptInt : Option Int → String
  | none => "None"
  | some n => toString n

/-! ## Responses and escaping exceptions -/

/-- A Python exception escaping a tool function. -/
inductive PyErr where
  | nameError (missing : String)
  | keyError
  | validationError
deriving DecidableEq

/-- The response mapping of the single-item tools; keys that a given return
statement does not mention are `none`. -/
structure Resp where
  success : Bool
  error : Option String := none
  message : Option String := none
  task : Option TaskDict := none
deriving DecidableEq

/-- Rendering of an `Optional[str]` inside an f-string. -/
def pyShowOptStr : Option String → String
  | none => "None"
  | some s => s

/-! ## Single-item tools (tools/basic_operations.py)

Mutating tools return the response (or the escaping exception) together with
the updated store.  The `due` parameter arrives as an ISO-8601 string in the
source and is parsed with `datetime.fromisoformat(due.replace('Z','+00:00'))`;
the embedding receives the parsed value: `none` = parameter absent,
`some none` = present but empty (explicit clear), `some (some d)` = parsed. -/

/-- `get_task` (basic_operations.py:121-153). -/
def get_task (localOff : Int) (s : Store) (task_id : Option Int) (uuid : Option String) :
    Except PyErr Resp :=
  if !truthyIdOpt task_id && !truthyStrOpt uuid then
    .ok { success := false, error := some "Either task_id or uuid must be provided" }
  else
    match (if truthyIdOpt task_id then twGetById s (task_id.getD 0)
           else twGetByUuid s (uuid.getD "")) with
    | some t => .ok { success := true, task := some (task_to_dict localOff t) }
    | none =>
      let identifier := if truthyIdOpt task_id then "ID " ++ pyShowOptInt task_id
                        else "UUID " ++ pyShowOptStr uuid
      .ok { success := false, error := some s!"Task with {identifier} not found" }

/-- `complete_task` (basic_operations.py:155-189). -/
def complete_task (s : Store) (task_id : Option Int) (uuid : Option String) :
    Except PyErr Resp × Store :=
  if !truthyIdOpt task_id && !truthyStrOpt uuid then
    (.ok { success := false, error := some "Either task_id or uuid must be provided" }, s)
  else
    match (if truthyIdOpt task_id then twGetById s (task_id.getD 0)
           else twGetByUuid s (uuid.getD "")) with
    | some t =>
      let identifier := if truthyIdOpt task_id then pyShowOptInt task_id else pyShowOptStr uuid
      (.ok { success := true, message := some s!"Task {identifier} marked as completed" },
       storeSave s t.uuid Task.done)
    | none =>
      let identifier := if truthyIdOpt task_id then "ID " ++ pyShowOptInt task_id
                        else "UUID " ++ pyShowOptStr uuid
      (.ok { success := false, error := some s!"Task with {identifier} not found" }, s)

/-- `uncomplete_task` (basic_operations.py:191-250): tries UUID first, falls
back to numeric id, checks the completed precondition, then saves
`status = 'pending'`. -/
def uncomplete_task (localOff : Int) (s : Store) (task_id : Option Int) (uuid : Option String) :
    Except PyErr Resp × Store :=
  if !truthyIdOpt task_id && !truthyStrOpt uuid then
    (.ok { success := false, error := some "Either task_id or uuid must be provided" }, s)
  else
    let byUuid := if truthyStrOpt uuid then twGetByUuid s (uuid.getD "") else none
    let task := match byUuid with
      | some t => some t
      | none => if truthyIdOpt task_id then twGetById s (task_id.getD 0) else none
    -- identifier = uuid or f"ID {task_id}"
    let identifier := if truthyStrOpt uuid then pyShowOptStr uuid
                      else "ID " ++ pyShowOptInt task_id
    match task with
    | none => (.ok { success := false, error := some s!"Task with {identifier} not found" }, s)
    | some t =>
      if t.status != "completed" then
        (.ok { success := false,
               error := some s!"Task {identifier} is not completed (current status: {t.status})" }, s)
      else
        let t' := { t with status := "pending" }
        (.ok { success := true, message := some s!"Task {identifier} marked as pending",
               task := some (task_to_dict localOff t') },
         storeSave s t.uuid (fun _ => t'))

/-- The per-field updates of `modify_task` applied to the fetched record
(basic_operations.py:264-282). -/
def modifyFields (localOff : Int) (description project priority : Option String)
    (tags : Option (List String)) (due : Option (Option DT)) (t : Task) : Task :=
  let t := if truthyStrOpt description then { t with description := description.getD "" } else t
  let t := match project with | some p => { t with project := some p } | none => t
  let t := match priority with | some p => { t with priority := some p } | none => t
  let t := match tags with | some l => { t with tags := l.toFinset } | none => t
  match due with
  | none => t
  | some (some d) => { t with due := some (d.astimezone localOff localOff) }
  | some none => { t with due := none }

/-- `modify_task` (basic_operations.py:252-299).  When the id does not
resolve, the `except Task.DoesNotExist` handler evaluates
`f"Task with ID {params.task_id} not found"`, but no binding named `params`
exists in this function; the f-string raises `NameError`, and the sibling
`except Exception` clause of the same `try` statement does not catch an
exception raised inside another handler, so the `NameError` escapes. -/
def modify_task (localOff : Int) (s : Store) (task_id : Int)
    (description project priority : Option String)
    (tags : Option (List String)) (due : Option (Option DT)) :
    Except PyErr Resp × Store :=
  match twGetById s task_id with
  | some t =>
    let t' := modifyFields localOff description project priority tags due t
    (.ok { success := true, task := some (task_to_dict localOff t'),
           message := some s!"Task {task_id} modified successfully" },
     storeSave s t.uuid (fun _ => t'))
  | none => (.error (.nameError "params"), s)

/-- `delete_task` (basic_operations.py:301-334).  The not-found handler has
the same unbound `params` reference as `modify_task`. -/
def delete_task (s : Store) (task_id : Option Int) (uuid : Option String) :
    Except PyErr Resp × Store :=
  if !truthyIdOpt task_id && !truthyStrOpt uuid then
    (.ok { success := false, error := some "Either task_id or uuid must be provided" }, s)
  else
    match (if truthyIdOpt task_id then twGetById s (task_id.getD 0)
           else twGetByUuid s (uuid.getD "")) with
    | some t =>
      let identifier := if truthyIdOpt task_id then pyShowOptInt task_id else pyShowOptStr uuid
      (.ok { success := true, message := some s!"Task {identifier} deleted successfully" },
       storeSave s t.uuid Task.del)
    | none => (.error (.nameError "params"), s)

/-- `start_task` (basic_operations.py:336-370).  Same unbound `params` in the
not-found handler. -/
def start_task (localOff : Int) (now : DT) (s : Store)
    (task_id : Option Int) (uuid : Option String) :
    Except PyErr Resp × Store :=
  if !truthyIdOpt task_id && !truthyStrOpt uuid then
    (.ok { success := false, error := some "Either task_id or uuid must be provided" }, s)
  else
    match (if truthyIdOpt task_id then twGetById s (task_id.getD 0)
           else twGetByUuid s (uuid.getD "")) with
    | some t =>
      let identifier := if truthyIdOpt task_id then pyShowOptInt task_id else pyShowOptStr uuid
      (.ok { success := true, message := some s!"Started working on task {identifier}",
             task := some (task_to_dict localOff (t.startTracking now)) },
       storeSave s t.uuid (Task.startTracking now))
    | none => (.error (.nameError "params"), s)

/-- `stop_task` (basic_operations.py:372-406).  Same unbound `params` in the
not-found handler. -/
def stop_task (localOff : Int) (s : Store) (task_id : Option Int) (uuid : Option String) :
    Except PyErr Resp × Store :=
  if !truthyIdOpt task_id && !truthyStrOpt uuid then
    (.ok { success := false, error := some "Either task_id or uuid must be provided" }, s)
  else
    match (if truthyIdOpt task_id then twGetById s (task_id.getD 0)
           else twGetByUuid s (uuid.getD "")) with
    | some t =>
      let identifier := if truthyIdOpt task_id then pyShowOptInt task_id else pyShowOptStr uuid
      (.ok { success := true, message := some s!"Stopped working on task {identifier}",
             task := some (task_to_dict localOff t.stopTracking) },
       storeSave s t.uuid Task.stopTracking)
    | none => (.error (.nameError "params"), s)

/-! ## purge_deleted_tasks (basic_operations.py:531-579) -/

/-- The outcome of `subprocess.run(['task','purge'], input='yes\nall\n',
timeout=30)`: either the process completed with a return code and stderr, or
it hit the 30s timeout (`subprocess.TimeoutExpired`). -/
inductive PurgeCmd where
  | completes (returncode : Int) (stderr : String)
  | hangs
deriving DecidableEq

/-- The purge response mapping. -/
structure PurgeResp where
  success : Bool
  message : Option String := none
  purged_count : Option Nat := none
  details : Option String := none
  error : Option String := none
  found_deleted_count : Option Nat := none
deriving DecidableEq

/-- `purge_deleted_tasks`.  The Bool in the result records whether the
destructive `task purge` subprocess was invoked at all. -/
def purge_deleted_tasks (s : Store) (cmd : PurgeCmd) : PurgeResp × Bool :=
  let deleted_count := (s.filter (fun t => t.status == "deleted")).length
  if deleted_count = 0 then
    ({ success := true, message := some "No deleted tasks to purge",
       purged_count := some 0 }, false)
  else
    match cmd with
    | .completes rc stderr =>
      if rc = 0 then
        ({ success := true,
           message := some s!"Successfully purged {deleted_count} deleted tasks",
           purged_count := some deleted_count,
           details := some "Deleted tasks have been permanently removed from the database" },
         true)
      else
        ({ success := false, error := some s!"Purge command failed: {stderr}",
           found_deleted_count := some deleted_count }, true)
    | .hangs =>
      ({ success := false, error := some "Purge operation timed out after 30 seconds" }, true)

/-! ## Filtering (utils/filters.py) -/

/-- Python substring test `pat in s`. -/
def subIn (pat : List Char) : List Char → Bool
  | [] => pat == []
  | c :: rest => ((c :: rest).take pat.length == pat) || subIn pat rest

/-- `s.lower()` (ASCII case folding, which is what the tags/descriptions here
use). -/
def lowerChars (s : String) : List Char := s.data.map Char.toLower

/-- `needle.lower() in hay.lower()`. -/
def inLower (needle hay : String) : Bool := subIn (lowerChars needle) (lowerChars hay)

/-- Python comparison of two aware datetimes compares instants.  The operands
compared in this repository are aware in practice (tasklib returns aware
datetimes; the bounds are parsed from explicit-offset ISO strings); a naive
operand, which would make Python raise `TypeError`, is read as UTC here. -/
def DT.instantUtc (d : DT) : Int := d.wall - d.tz.getD 0

/-- `BatchFilterParams` (utils/models.py:58-66).  The two due bounds are
ISO-8601 strings in the source, parsed inside `filter_tasks` with
`datetime.fromisoformat(x.replace('Z','+00:00'))`; the embedding carries the
parsed datetime. -/
structure FilterSpec where
  status : Option String := none
  project : Option String := none
  tags : Option (List String) := none
  priority : Option String := none
  description_contains : Option String := none
  due_before : Option DT := none
  due_after : Option DT := none
  limit : Option Nat := none
deriving DecidableEq

/-- The per-record predicate block of `filter_tasks` (utils/filters.py:35-67),
translated statement by statement (`matches = True`, then each filter may set
it to `False`). -/
def matchesFilters (f : FilterSpec) (t : Task) : Bool :=
  let m := true
  -- if filters.project: if task_model.project != filters.project: matches = False
  let m := if truthyStrOpt f.project then (if t.project ≠ f.project then false else m) else m
  -- if filters.priority: if task_model.priority != filters.priority: matches = False
  let m := if truthyStrOpt f.priority then (if t.priority ≠ f.priority then false else m) else m
  -- if filters.tags: if not task_model.tags or not any(tag in task_model.tags
  --                                                    for tag in filters.tags): matches = False
  let m := if truthyListOpt f.tags then
             (if t.tags = ∅ ∨ ¬ ∃ tag ∈ f.tags.getD [], tag ∈ t.tags then false else m)
           else m
  -- if filters.description_contains: if not task_model.description or
  --     filters.description_contains.lower() not in task_model.description.lower(): matches = False
  let m := if truthyStrOpt f.description_contains then
             (if t.description = "" ∨ inLower (f.description_contains.getD "") t.description = false
              then false else m)
           else m
  -- if filters.due_before and task_due: if task_due >= due_before: matches = False
  let m := match f.due_before, t.due with
    | some b, some d => if d.instantUtc ≥ b.instantUtc then false else m
    | _, _ => m
  -- if filters.due_after and task_due: if task_due <= due_after: matches = False
  let m := match f.due_after, t.due with
    | some a, some d => if d.instantUtc ≤ a.instantUtc then false else m
    | _, _ => m
  m

/-- `filter_tasks` (utils/filters.py:14-76): status pre-scope, the predicate
block per record, then the limit truncation. -/
def filter_tasks (s : Store) (f : FilterSpec) : List Task :=
  let pool := if truthyStrOpt f.status
              then s.filter (fun t => t.status == f.status.getD "")
              else s
  let filtered := pool.filter (matchesFilters f)
  -- if filters.limit and len(filtered_tasks) > filters.limit: truncate
  match f.limit with
  | some l => if l ≠ 0 ∧ filtered.length > l then filtered.take l else filtered
  | none => filtered

/-! ## Batch operations (tools/batch_operations.py) -/

/-- One entry of a batch `results` list (`task` is only present for
`batch_modify_tasks`). -/
structure ResEntry where
  task_id : Option Int
  success : Bool
  message : String
  task : Option TaskDict := none
deriving DecidableEq

/-- The response mapping of the batch tools; `count` is the operation's
`*_count` key. -/
structure BatchResult where
  success : Bool
  count : Nat
  results : List ResEntry
  errors : List String
  error : Option String := none
deriving DecidableEq

/-- The loop body of `batch_complete_by_ids` (batch_operations.py:45-57):
resolve the id, complete on success, record a not-found error otherwise. -/
def completeStep (acc : Store × List ResEntry × List String) (i : Int) :
    Store × List ResEntry × List String :=
  match twGetById acc.1 i with
  | some t =>
    (storeSave acc.1 t.uuid Task.done,
     acc.2.1 ++ [{ task_id := some i, success := true, message := s!"Task {i} completed" }],
     acc.2.2)
  | none => (acc.1, acc.2.1, acc.2.2 ++ [s!"Task {i} not found"])

/-- `batch_complete_by_ids` (batch_operations.py:36-70).  (The optional
`task_uuids` parameter is accepted and ignored by the source.) -/
def batch_complete_by_ids (s : Store) (task_ids : List Int) : BatchResult × Store :=
  let r := task_ids.foldl completeStep (s, [], [])
  ({ success := r.2.2.isEmpty, count := r.2.1.length, results := r.2.1, errors := r.2.2 }, r.1)

/-- The per-task modification block of `batch_modify_tasks`
(batch_operations.py:466-493): project/priority sets, tag set union then
difference, due set/clear. -/
def applyMods (localOff : Int) (project priority : Option String)
    (add_tags remove_tags : Option (List String)) (due : Option (Option DT)) (t : Task) : Task :=
  let t := match project with | some p => { t with project := some p } | none => t
  let t := match priority with | some p => { t with priority := some p } | none => t
  -- if add_tags: current_tags = set(...); current_tags.update(add_tags); task['tags'] = current_tags
  let t := if truthyListOpt add_tags then { t with tags := t.tags ∪ (add_tags.getD []).toFinset }
           else t
  -- if remove_tags: current_tags -= set(remove_tags)
  let t := if truthyListOpt remove_tags then { t with tags := t.tags \ (remove_tags.getD []).toFinset }
           else t
  match due with
  | none => t
  | some (some d) => { t with due := some (d.astimezone localOff localOff) }
  | some none => { t with due := none }

/-- `elif any([status, filter_project, ..., filter_limit]):`
(batch_operations.py:439-440), Python truthiness of each filter field. -/
def anyFilterSupplied (f : FilterSpec) : Bool :=
  truthyStrOpt f.status || truthyStrOpt f.project || truthyListOpt f.tags ||
  truthyStrOpt f.priority || truthyStrOpt f.description_contains ||
  f.due_before.isSome || f.due_after.isSome || (f.limit.getD 0 != 0)

/-- The loop body of `batch_modify_tasks` (batch_operations.py:464-503): no
statement in it can raise (the due value arrives pre-parsed), so every
selected task yields a success entry. -/
def modifyStep (localOff : Int) (project priority : Option String)
    (add_tags remove_tags : Option (List String)) (due : Option (Option DT))
    (acc : Store × List ResEntry) (t0 : Task) : Store × List ResEntry :=
  let t1 := applyMods localOff project priority add_tags remove_tags due t0
  (storeSave acc.1 t0.uuid (fun _ => t1),
   acc.2 ++ [{ task_id := t1.id, success := true,
               message := s!"Task {pyShowOptInt t1.id} modified",
               task := some (task_to_dict localOff t1) }])

/-- `batch_modify_tasks` (batch_operations.py:409-516).  With an explicit
`task_ids` list the selection is `tw.tasks.get(id=...)` per id with
`except Task.DoesNotExist: continue` — an unresolvable id is skipped

silently. -/
def batch_modify_tasks (localOff : Int) (s : Store) (task_ids : Option (List Int))
    (f : FilterSpec) (project priority : Option String)
    (add_tags remove_tags : Option (List String)) (due : Option (Option DT)) :
    BatchResult × Store :=
  if truthyListOpt task_ids then
    let tasks := (task_ids.getD []).filterMap (twGetById s)
    let r := tasks.foldl (modifyStep localOff project priority add_tags remove_tags due) (s, [])
    ({ success := true, count := r.2.length, results := r.2, errors := [] }, r.1)
  else if anyFilterSupplied f then
    let r := (filter_tasks s f).foldl
      (modifyStep localOff project priority add_tags remove_tags due) (s, [])
    ({ success := true, count := r.2.length, results := r.2, errors := [] }, r.1)
  else
    ({ success := false, count := 0, results := [], errors := [],
       error := some "Either task_ids or filters must be provided" }, s)

/-! ## get_summary (tools/metadata_operations.py:69-121) -/

/-- The `priority_counts` dictionary (keys `H`, `M`, `L`, `None`). -/
structure PrioCounts where
  h : Nat
  m : Nat
  l : Nat
  noneCount : Nat
deriving DecidableEq

/-- The summary response payload. -/
structure SummaryResp where
  success : Bool
  pending : Nat
  completed : Nat
  total : Nat
  priority : PrioCounts
  overdue : Nat
deriving DecidableEq

/-- The overdue test applied to one pending task (metadata_operations.py:96-106):
naive due dates get `replace(tzinfo=timezone.utc)`, then
`due_date.astimezone(timezone.utc) < now`, a strict comparison. -/
def isOverdue (now : Int) (t : Task) : Bool :=
  match t.due with
  | none => false
  | some d =>
    let dAware := if d.tz = none then d.withTz 0 else d
    let due_date_utc := dAware.astimezone 0 0
    decide (due_date_utc.instantUtc < now)

/-- `get_summary`, with the evaluation instant `now`
(`datetime.now(timezone.utc)`) made explicit as a UTC instant. -/
def get_summary (s : Store) (now : Int) : SummaryResp :=
  let pending := s.filter (fun t => t.status == "pending")
  let completed := s.filter (fun t => t.status == "completed")
  let prio := pending.foldl (fun (acc : PrioCounts) t =>
      match t.priority with
      | some "H" => { acc with h := acc.h + 1 }
      | some "M" => { acc with m := acc.m + 1 }
      | some "L" => { acc with l := acc.l + 1 }
      | _ => { acc with noneCount := acc.noneCount + 1 }) ⟨0, 0, 0, 0⟩
  let overdue := (pending.filter (isOverdue now)).length
  { success := true, pending := pending.length, completed := completed.length,
    total := s.length, priority := prio, overdue := overdue }

/-! ## TaskModel.from_taskwarrior_task (utils/models.py:203-246)

The input is a tasklib `Task` whose `task[field]` accessor yields dynamically
typed values, modeled as an association list of Python values.  Construction
runs pydantic v2 validation on each field (smart mode: no int→str coercion),
after the model's own `mode='before'` validators for `tags`, `depends` and
`annotations`. -/

/-- A dynamically typed Python value as it can sit in a store record. -/
inductive PyVal where
  | vnone
  | vint (n : Int)
  | vfloat (q : Int)
  | vstr (s : String)
  | vdt (d : DT)
  | vlistStr (l : List String)
  | vsetStr (l : List String)
  | vannList (l : List TaskAnnot)
deriving DecidableEq

/-- A raw store record: field name to value. -/
abbrev RawTask := List (String × PyVal)

/-- `task[field]`: `KeyError` when the field is absent. -/
def rawGet (r : RawTask) (k : String) : Except PyErr PyVal :=
  match r.find? (fun kv => kv.1 == k) with
  | some kv => .ok kv.2
  | none => .error .keyError

/-- The `safe_get` helper inside `from_taskwarrior_task`
(utils/models.py:211-221): catches `KeyError`/`AttributeError` into the
default, and maps an `id` of `None` or `0` to `None`. -/
def safeGet (r : RawTask) (k : String) (default : PyVal) : PyVal :=
  match rawGet r k with
  | .ok v =>
    if k == "id" && (v == .vnone || v == .vint 0) then .vnone else v
  | .error _ => default

/-- pydantic validation of `Optional[int]`. -/
def vIntOpt : PyVal → Except PyErr (Option Int)
  | .vnone => .ok none
  | .vint n => .ok (some n)
  | _ => .error .validationError

/-- pydantic validation of `Optional[str]` (no coercion from other types in
smart mode). -/
def vStrOpt : PyVal → Except PyErr (Option String)
  | .vnone => .ok none
  | .vstr s => .ok (some s)
  | _ => .error .validationError

/-- pydantic validation of a required `str` field (an int or other
non-string raises; v2 does not coerce to str). -/
def vStr : PyVal → Except PyErr String
  | .vstr s => .ok s
  | _ => .error .validationError

/-- pydantic validation of `float` (an int is accepted). -/
def vFloat : PyVal → Except PyErr Int
  | .vfloat q => .ok q
  | .vint n => .ok n
  | _ => .error .validationError

/-- pydantic validation of `Optional[datetime]`. -/
def vDtOpt : PyVal → Except PyErr (Option DT)
  | .vnone => .ok none
  | .vdt d => .ok (some d)
  | _ => .error .validationError

/-- The `convert_tags` / `convert_depends` `mode='before'` validator
(utils/models.py:133-151): `None` → `[]`, a set or tuple → `list(...)`, a
list kept, anything else → `[]`.  A Python set iterates in unspecified
order; the embedding keeps the carrier list as given. -/
def vTagList : PyVal → Except PyErr (List String)
  | .vnone => .ok []
  | .vsetStr l => .ok l
  | .vlistStr l => .ok l
  | _ => .ok []

/-- The `convert_annotations` `mode='before'` validator
(utils/models.py:153-169): falsy → `[]`, a list of annotation dicts/objects
is converted elementwise; iterating a non-sequence raises. -/
def vAnnots : PyVal → Except PyErr (List TaskAnnot)
  | .vnone => .ok []
  | .vannList l => .ok l
  | .vint 0 => .ok []
  | .vstr "" => .ok []
  | _ => .error .validationError

/-- `TaskModel.from_taskwarrior_task` (utils/models.py:203-246): every field
goes through `safe_get` with its documented default, then through pydantic
validation; a validation failure is a raised `ValidationError`. -/
def from_taskwarrior_task (r : RawTask) : Except PyErr TaskModel := do
  let id ← vIntOpt (safeGet r "id" .vnone)
  let uuid ← vStrOpt (safeGet r "uuid" .vnone)
  let description ← vStr (safeGet r "description" (.vstr ""))
  let status ← vStr (safeGet r "status" (.vstr "pending"))
  let project ← vStrOpt (safeGet r "project" .vnone)
  let priority ← vStrOpt (safeGet r "priority" .vnone)
  let tags ← vTagList (safeGet r "tags" (.vlistStr []))
  let urgency ← vFloat (safeGet r "urgency" (.vfloat 0))
  let entry ← vDtOpt (safeGet r "entry" .vnone)
  let modified ← vDtOpt (safeGet r "modified" .vnone)
  let due ← vDtOpt (safeGet r "due" .vnone)
  let start ← vDtOpt (safeGet r "start" .vnone)
  let endV ← vDtOpt (safeGet r "end" .vnone)
  let wait ← vDtOpt (safeGet r "wait" .vnone)
  let untilV ← vDtOpt (safeGet r "until" .vnone)
  let annots ← vAnnots (safeGet r "annotations" (.vannList []))
  let depends ← vTagList (safeGet r "depends" (.vlistStr []))
  let recur ← vStrOpt (safeGet r "recur" .vnone)
  .ok { id := id, uuid := uuid, description := description, status := status,
        project := project, priority := priority, tags := tags, urgency := urgency,
        entry := entry, modified := modified, due := due, start := start,
        endT := endV, wait := wait, untilT := untilV,
        annotations := annots, depends := depends, recur := recur }

/-- `e` is a normal return, not a raised exception. -/
def isOkE {α : Type} : Except PyErr α → Bool
  | .ok _ => true
  | .error _ => false

/-- The well-typedness of one present raw field: its value passes the
validator that `from_taskwarrior_task` runs for that key (any value is fine
under a key the constructor does not read). -/
def fieldOk : String × PyVal → Bool
  | ("id", v) => isOkE (vIntOpt v)
  | ("uuid", v) => isOkE (vStrOpt v)
  | ("description", v) => isOkE (vStr v)
  | ("status", v) => isOkE (vStr v)
  | ("project", v) => isOkE (vStrOpt v)
  | ("priority", v) => isOkE (vStrOpt v)
  | ("tags", v) => isOkE (vTagList v)
  | ("urgency", v) => isOkE (vFloat v)
  | ("entry", v) => isOkE (vDtOpt v)
  | ("modified", v) => isOkE (vDtOpt v)
  | ("due", v) => isOkE (vDtOpt v)
  | ("start", v) => isOkE (vDtOpt v)
  | ("end", v) => isOkE (vDtOpt v)
  | ("wait", v) => isOkE (vDtOpt v)
  | ("until", v) => isOkE (vDtOpt v)
  | ("annotations", v) => isOkE (vAnnots v)
  | ("depends", v) => isOkE (vTagList v)
  | ("recur", v) => isOkE (vStrOpt v)
  | _ => true

/-! ## Fixtures used by the concrete theorems -/

def taskA : Task := { id := some 1, uuid := "aaa", description := "task A" }

def taskB : Task := { id := some 2, uuid := "bbb", description := "task B" }

def storeAB : Store := [taskA, taskB]

def tNoDue : Task := { id := some 1, uuid := "u1", description := "no due date" }

def tTagged : Task :=
  { id := some 3, uuid := "u3", description := "Write report",
    project := some "work", tags := {"alpha", "beta"} }

def tDue5 : Task := { id := some 4, uuid := "u4", due := some ⟨5, some 0⟩ }

def delTask : Task := { id := none, uuid := "ddd", description := "gone", status := "deleted" }

/-- An id resolves against the store. -/
def resolvable (s : Store) (i : Int) : Bool := (twGetById s i).isSome

/-- Spec-side matching predicate for C5, written from the spec's words (as
amended): the supplied predicates are AND-combined; the tag predicate asks
for at least one listed tag on the record (OR within the list); a record
with an absent project/priority/tags/description fails the corresponding
supplied predicate; the due bounds are strict comparisons, skipped when the
record has no due date. -/
def SpecMatches (f : FilterSpec) (t : Task) : Prop :=
  (truthyStrOpt f.project = true → t.project = f.project)
  ∧ (truthyStrOpt f.priority = true → t.priority = f.priority)
  ∧ (truthyListOpt f.tags = true → ∃ tag ∈ f.tags.getD [], tag ∈ t.tags)
  ∧ (truthyStrOpt f.description_contains = true →
       t.description ≠ "" ∧ inLower (f.description_contains.getD "") t.description = true)
  ∧ (∀ b d, f.due_before = some b → t.due = some d → d.instantUtc < b.instantUtc)
  ∧ (∀ a d, f.due_after = some a → t.due = some d → a.instantUtc < d.instantUtc)

/-! ## Store lemmas shared by the batch proofs -/

/-- Saving an id-preserving update at uuid `u` rewrites an id lookup
pointwise. -/
theorem twGetById_storeSave (s : Store) (u : String) (f : Task → Task)
    (hf : ∀ t, (f t).id = t.id) (i : Int) :
    twGetById (storeSave s u f) i
      = (twGetById s i).map (fun t => if t.uuid == u then f t else t) := by
  unfold twGetById storeSave
  rw [List.find?_map]
  have hp : ((fun t : Task => t.id == some i) ∘ fun t => if t.uuid == u then f t else t)
      = (fun t : Task => t.id == some i) := by
    funext t
    by_cases h : t.uuid == u <;> simp [Function.comp, h, hf]
  rw [hp]

/-- Saving an id-preserving update does not change which ids resolve. -/
theorem resolvable_storeSave (s : Store) (u : String) (f : Task → Task)
    (hf : ∀ t, (f t).id = t.id) (i : Int) :
    resolvable (storeSave s u f) i = resolvable s i := by
  unfold resolvable
  rw [twGetById_storeSave s u f hf i]
  cases twGetById s i <;> rfl

/-- Characterization of the `batch_complete_by_ids` fold: errors collect
exactly one not-found message per unresolvable id, results collect exactly
one success entry per resolvable id, resolvability is unchanged, a status
only ever moves to `completed`, and every resolvable id ends completed. -/
theorem completeFold_spec (ids : List Int) :
    ∀ (s : Store) (res : List ResEntry) (err : List String),
      (ids.foldl completeStep (s, res, err)).2.2
          = err ++ (ids.filter (fun i => !resolvable s i)).map (fun i => s!"Task {i} not found")
      ∧ (ids.foldl completeStep (s, res, err)).2.1
          = res ++ (ids.filter (fun i => resolvable s i)).map
              (fun i => { task_id := some i, success := true,
                          message := s!"Task {i} completed" : ResEntry })
      ∧ (∀ j, resolvable (ids.foldl completeStep (s, res, err)).1 j = resolvable s j)
      ∧ (∀ j t t', twGetById s j = some t →
            twGetById (ids.foldl completeStep (s, res, err)).1 j = some t' →
            t'.status = t.status ∨ t'.status = "completed")
      ∧ (∀ i ∈ ids, resolvable s i = true →
            ∀ t', twGetById (ids.foldl completeStep (s, res, err)).1 i = some t' →
            t'.status = "completed") := by
  induction ids with
  | nil =>
    intro s res err
    refine ⟨by simp, by simp, fun j => rfl, ?_, ?_⟩
    · intro j t t' h h'
      rw [List.foldl_nil] at h'
      rw [h] at h'
      cases h'
      exact Or.inl rfl
    · intro i hi
      cases hi
  | cons i rest ih =>
    intro s res err
    rw [List.foldl_cons]
    cases h : twGetById s i with
    | some t0 =>
      have hri : resolvable s i = true := by unfold resolvable; rw [h]; rfl
      have hstep : completeStep (s, res, err) i
          = (storeSave s t0.uuid Task.done,
             res ++ [{ task_id := some i, success := true,
                       message := s!"Task {i} completed" }],
             err) := by
        unfold completeStep
        rw [h]
      rw [hstep]
      have hid : ∀ u : Task, (Task.done u).id = u.id := fun u => rfl
      have hres1 : ∀ j, resolvable (storeSave s t0.uuid Task.done) j = resolvable s j :=
        fun j => resolvable_storeSave s t0.uuid Task.done hid j
      have hget1 : ∀ j, twGetById (storeSave s t0.uuid Task.done) j
          = (twGetById s j).map (fun u => if u.uuid == t0.uuid then Task.done u else u) :=
        fun j => twGetById_storeSave s t0.uuid Task.done hid j
      obtain ⟨e1, e2, e3, e4, e5⟩ := ih (storeSave s t0.uuid Task.done)
        (res ++ [{ task_id := some i, success := true, message := s!"Task {i} completed" }]) err
      have hfilt1 : rest.filter (fun j => !resolvable (storeSave s t0.uuid Task.done) j)
          = rest.filter (fun j => !resolvable s j) :=
        List.filter_congr (fun a _ => by rw [hres1 a])
      have hfilt2 : rest.filter (fun j => resolvable (storeSave s t0.uuid Task.done) j)
          = rest.filter (fun j => resolvable s j) :=
        List.filter_congr (fun a _ => by rw [hres1 a])
      refine ⟨?_, ?_, ?_, ?_, ?_⟩
      · rw [e1, hfilt1, List.filter_cons]
        simp [hri]
      · rw [e2, hfilt2, List.filter_cons]
        simp [hri]
      · intro j
        rw [e3 j, hres1 j]
      · intro j t t' ht ht'
        have hs1 : twGetById (storeSave s t0.uuid Task.done) j
            = some (if t.uuid == t0.uuid then Task.done t else t) := by
          rw [hget1 j, ht]
          rfl
        rcases e4 j _ t' hs1 ht' with h4 | h4
        · by_cases huu : t.uuid == t0.uuid
          · rw [huu] at h4
            simp only [if_pos rfl] at h4
            exact Or.inr h4
          · rw [if_neg huu] at h4
            exact Or.inl h4
        · exact Or.inr h4
      · intro i' hi' hri' t' ht'
        rcases List.mem_cons.mp hi' with heq | hmem
        · subst heq
          have hs1 : twGetById (storeSave s t0.uuid Task.done) i'
              = some (Task.done t0) := by
            rw [hget1 i', h]
            simp
          rcases e4 i' (Task.done t0) t' hs1 ht' with h4 | h4
          · exact h4
          · exact h4
        · exact e5 i' hmem (by rw [hres1 i']; exact hri') t' ht'
    | none =>
      have hri : resolvable s i = false := by unfold resolvable; rw [h]; rfl
      have hstep : completeStep (s, res, err) i
          = (s, res, err ++ [s!"Task {i} not found"]) := by
        unfold completeStep
        rw [h]
      rw [hstep]
      obtain ⟨e1, e2, e3, e4, e5⟩ := ih s res (err ++ [s!"Task {i} not found"])
      refine ⟨?_, ?_, e3, e4, ?_⟩
      · rw [e1, List.filter_cons]
        simp [hri]
      · rw [e2, List.filter_cons]
        simp [hri]
      · intro i' hi' hri' t' ht'
        rcases List.mem_cons.mp hi' with heq | hmem
        · subst heq
          rw [hri'] at hri
          cases hri
        · exact e5 i' hmem hri' t' ht'

/-! ## Claims -/

/-- C1: the claim says `to_utc_dict` serializes every timestamp as an
ISO-8601 string in UTC ending in `Z`, converting naive stamps from local
time to UTC.  The code instead re-expresses the instant in the
process-local timezone (`astimezone` is called with the local tzinfo, not
`timezone.utc`), so with a local offset of +02:00 an aware UTC timestamp
serializes with a `+02:00` suffix and no `Z`; a naive timestamp keeps its
local wall-clock reading.  Only when the local timezone is UTC itself does
the output match the claim. -/
theorem c1_to_utc_dict_uses_local_offset :
    (TaskModel.to_utc_dict 120 { due := some ⟨0, some 0⟩ }).due = some "120+02:00"
    ∧ endsInZ "120+02:00" = false
    ∧ (TaskModel.to_utc_dict 120 { due := some ⟨60, none⟩ }).due = some "60+02:00"
    ∧ (TaskModel.to_utc_dict 0 { due := some ⟨0, some 0⟩ }).due = some "0Z" :=
  ⟨rfl, rfl, rfl, rfl⟩

/-- C2: the claim says every single-item operation returns a structured
mapping, and an unresolved identifier yields `{success: false, error: "...
not found"}`.  For `modify_task`, `delete_task`, `start_task` and
`stop_task` the `except Task.DoesNotExist` handler references the unbound
name `params`, so the not-found path raises `NameError` out of the function
instead of returning the mapping; `get_task`, `complete_task` and
`uncomplete_task` return the structured mapping as claimed. -/
theorem c2_single_item_not_found :
    modify_task 0 [] 1 none none none none none = (.error (.nameError "params"), [])
    ∧ delete_task [] (some 1) none = (.error (.nameError "params"), [])
    ∧ start_task 0 ⟨0, some 0⟩ [] (some 1) none = (.error (.nameError "params"), [])
    ∧ stop_task 0 [] (some 1) none = (.error (.nameError "params"), [])
    ∧ get_task 0 [] (some 1) none
        = .ok { success := false, error := some "Task with ID 1 not found" }
    ∧ complete_task [] (some 1) none
        = (.ok { success := false, error := some "Task with ID 1 not found" }, [])
    ∧ (uncomplete_task 0 [] (some 1) none).1
        = .ok { success := false, error := some "Task with ID 1 not found" } :=
  ⟨rfl, rfl, rfl, rfl, rfl, rfl, rfl⟩

/-- C3 (counterexample): with both identifiers supplied and naming different
records, `get_task` returns the record designated by the numeric id, not the
one designated by the uuid — the claim's UUID-first resolution does not hold
for `get_task`. -/
theorem c3_get_task_prefers_numeric_id :
    get_task 0 storeAB (some 1) (some "bbb")
      = .ok { success := true, task := some (task_to_dict 0 taskA) }
    ∧ task_to_dict 0 taskA ≠ task_to_dict 0 taskB :=
  ⟨rfl, by decide⟩

/-- C3 (amended): identifier precedence is per operation.  `get_task` (like
`complete_task`, `delete_task`, `start_task`, `stop_task`, `modify_task`)
resolves by the numeric `task_id` first whenever one is supplied, returning
the record that id designates; only `uncomplete_task` (and `restore_task`)
look up by UUID first and operate on the uuid-designated record. -/
theorem c3_resolution_order (localOff : Int) (s : Store) (tid : Int) (u : String) (t : Task)
    (htid : tid ≠ 0) (hu : u ≠ "") :
    (∀ t', twGetById s tid = some t' →
       get_task localOff s (some tid) (some u)
         = .ok { success := true, task := some (task_to_dict localOff t') })
    ∧ (twGetByUuid s u = some t → t.status = "completed" →
       uncomplete_task localOff s (some tid) (some u)
         = (.ok { success := true, message := some s!"Task {u} marked as pending",
                  task := some (task_to_dict localOff { t with status := "pending" }) },
            storeSave s t.uuid (fun _ => { t with status := "pending" }))) := by
  constructor
  · intro t' h
    simp [get_task, truthyIdOpt, truthyStrOpt, htid, hu, h]
  · intro h hc
    simp [uncomplete_task, truthyIdOpt, truthyStrOpt, htid, hu, h, hc, pyShowOptStr]

/-- C3 amended witness: store with task 1 = `aaa` (pending) and task 2 =
`bbb` (completed); `get_task(1, "bbb")` returns task 1's record, while
`uncomplete_task(1, "bbb")` operates on task 2. -/
theorem c3_resolution_order_witness :
    (get_task 0 [taskA, { taskB with status := "completed" }] (some 1) (some "bbb")
       = .ok { success := true, task := some (task_to_dict 0 taskA) })
    ∧ (uncomplete_task 0 [taskA, { taskB with status := "completed" }] (some 1) (some "bbb")).1
       = .ok { success := true, message := some "Task bbb marked as pending",
               task := some (task_to_dict 0 { taskB with status := "pending" }) } := by
  have h := c3_resolution_order 0 [taskA, { taskB with status := "completed" }] 1 "bbb"
    { taskB with status := "completed" } (by decide) (by decide)
  refine ⟨h.1 taskA (by decide), ?_⟩
  rw [h.2 (by decide) (by decide)]
  rfl

/-- C5 (counterexample): a record with no due date does not "trivially fail"
a supplied due-before predicate — `filter_tasks` skips the due bounds for
such a record, so it matches. -/
theorem c5_absent_due_passes_due_before :
    tNoDue.due = none
    ∧ filter_tasks [tNoDue] { due_before := some ⟨100, some 0⟩ } = [tNoDue] :=
  ⟨rfl, rfl⟩

/-- C4: `batch_complete_by_ids` processes each id independently: the overall
success flag is true exactly when every id resolves, `results` holds one
success entry per resolvable id (in list order), `errors` holds exactly one
not-found message per unresolvable id, and every resolvable id's record ends
up completed in the store, regardless of where failing ids sit in the
list. -/
theorem c4_batch_complete_partial_isolation (s : Store) (ids : List Int) :
    ((batch_complete_by_ids s ids).1.success = true ↔ ∀ i ∈ ids, resolvable s i = true)
    ∧ (batch_complete_by_ids s ids).1.results
        = (ids.filter (fun i => resolvable s i)).map
            (fun i => { task_id := some i, success := true,
                        message := s!"Task {i} completed" : ResEntry })
    ∧ (batch_complete_by_ids s ids).1.errors
        = (ids.filter (fun i => !resolvable s i)).map (fun i => s!"Task {i} not found")
    ∧ ∀ i ∈ ids, resolvable s i = true →
        ∀ t', twGetById (batch_complete_by_ids s ids).2 i = some t' →
          t'.status = "completed" := by
  obtain ⟨e1, e2, e3, e4, e5⟩ := completeFold_spec ids s [] []
  have hsucc : (batch_complete_by_ids s ids).1.success
      = ((ids.foldl completeStep (s, [], [])).2.2).isEmpty := rfl
  have hres : (batch_complete_by_ids s ids).1.results
      = (ids.foldl completeStep (s, [], [])).2.1 := rfl
  have herr : (batch_complete_by_ids s ids).1.errors
      = (ids.foldl completeStep (s, [], [])).2.2 := rfl
  have hsto : (batch_complete_by_ids s ids).2 = (ids.foldl completeStep (s, [], [])).1 := rfl
  refine ⟨?_, ?_, ?_, ?_⟩
  · rw [hsucc, e1]
    simp
  · rw [hres, e2]
    simp
  · rw [herr, e1]
    simp
  · intro i hi hri t' ht'
    exact e5 i hi hri t' (by rw [← hsto]; exact ht')

/-- C4 witness: in a store with pending tasks 1 and 2, completing
`[1, 99, 2]` fails overall, records exactly one not-found error for 99, two
success entries, and completes both 1 and 2. -/
theorem c4_batch_complete_partial_isolation_witness :
    (batch_complete_by_ids storeAB [1, 99, 2]).1.success = false
    ∧ (batch_complete_by_ids storeAB [1, 99, 2]).1.errors = ["Task 99 not found"]
    ∧ (batch_complete_by_ids storeAB [1, 99, 2]).1.results.length = 2
    ∧ twGetById (batch_complete_by_ids storeAB [1, 99, 2]).2 1
        = some { taskA with status := "completed" }
    ∧ ({ taskA with status := "completed" } : Task).status = "completed"
    ∧ ({ taskB with status := "completed" } : Task).status = "completed" := by
  have h := c4_batch_complete_partial_isolation storeAB [1, 99, 2]
  exact ⟨by decide, by decide, by decide, by decide,
         h.2.2.2 1 (by decide) (by decide) { taskA with status := "completed" } (by decide),
         h.2.2.2 2 (by decide) (by decide) { taskB with status := "completed" } (by decide)⟩

/-- A listed tag on the record already forces the record's tag set to be
nonempty, so the code's separate `not task_model.tags` test is absorbed. -/
theorem tagsClauseIff (l : List String) (s : Finset String) :
    (¬s = ∅ ∧ ∃ x ∈ l, x ∈ s) ↔ ∃ x ∈ l, x ∈ s := by
  constructor
  · exact And.right
  · intro h
    refine ⟨?_, h⟩
    rcases h with ⟨x, _, hx⟩
    exact Finset.ne_empty_of_mem hx

set_option maxHeartbeats 1600000 in
/-- C5 (amended): the record predicate of `filter_tasks` AND-combines the
supplied predicates, uses OR within the tag list, and fails a record with an
absent project/priority/tags/description on the corresponding predicate; the
strict due-before/due-after bounds are skipped (treated as satisfied) for a
record with no due date, rather than trivially failing it. -/
theorem c5_filter_semantics (f : FilterSpec) (t : Task) :
    matchesFilters f t = true ↔ SpecMatches f t := by
  unfold matchesFilters SpecMatches
  rcases hdb : f.due_before with _ | b <;> rcases hda : f.due_after with _ | a <;>
    rcases hdu : t.due with _ | d <;>
      by_cases h1 : truthyStrOpt f.project <;>
      by_cases h2 : truthyStrOpt f.priority <;>
      by_cases h3 : truthyListOpt f.tags <;>
      by_cases h4 : truthyStrOpt f.description_contains <;>
        simp [h1, h2, h3, h4, tagsClauseIff, not_le] <;>
        (try simp_all [tagsClauseIff, not_le]) <;> (try tauto)

/-- C5 witness: a project+tag filter matched by a concrete record, through
the equivalence. -/
theorem c5_filter_semantics_witness :
    SpecMatches { project := some "work", tags := some ["beta", "gamma"] } tTagged :=
  (c5_filter_semantics { project := some "work", tags := some ["beta", "gamma"] } tTagged).mp
    (by decide)

/-- C6: purge with zero deleted tasks reports success with `purged_count = 0`
and never invokes the destructive subprocess; with `N > 0` deleted tasks and
a zero exit code it reports `purged_count = N` (the pre-purge count); on a
non-zero exit code it reports the attempted count in
`found_deleted_count`, separately from the error text. -/
theorem c6_purge_reporting (s : Store) (cmd : PurgeCmd) :
    ((s.filter (fun t => t.status == "deleted")).length = 0 →
       purge_deleted_tasks s cmd
         = ({ success := true, message := some "No deleted tasks to purge",
              purged_count := some 0 }, false))
    ∧ (∀ stderr, (s.filter (fun t => t.status == "deleted")).length ≠ 0 →
        cmd = .completes 0 stderr →
        (purge_deleted_tasks s cmd).1.success = true
        ∧ (purge_deleted_tasks s cmd).1.purged_count
            = some (s.filter (fun t => t.status == "deleted")).length
        ∧ (purge_deleted_tasks s cmd).2 = true)
    ∧ (∀ rc stderr, (s.filter (fun t => t.status == "deleted")).length ≠ 0 →
        cmd = .completes rc stderr → rc ≠ 0 →
        (purge_deleted_tasks s cmd).1.success = false
        ∧ (purge_deleted_tasks s cmd).1.found_deleted_count
            = some (s.filter (fun t => t.status == "deleted")).length
        ∧ (purge_deleted_tasks s cmd).1.error = some s!"Purge command failed: {stderr}") := by
  refine ⟨?_, ?_, ?_⟩
  · intro h
    simp [purge_deleted_tasks, h]
  · intro stderr h hcmd
    subst hcmd
    refine ⟨?_, ?_, ?_⟩ <;> simp [purge_deleted_tasks, h]
  · intro rc stderr h hcmd hrc
    subst hcmd
    refine ⟨?_, ?_, ?_⟩ <;> simp [purge_deleted_tasks, h, hrc]

/-- C6 witness. -/
theorem c6_purge_reporting_witness :
    purge_deleted_tasks [taskA] PurgeCmd.hangs
      = ({ success := true, message := some "No deleted tasks to purge",
           purged_count := some 0 }, false)
    ∧ (purge_deleted_tasks [delTask] (.completes 0 "")).1.purged_count = some 1
    ∧ (purge_deleted_tasks [delTask] (.completes 1 "boom")).1.error
        = some "Purge command failed: boom" := by
  have h1 := (c6_purge_reporting [taskA] PurgeCmd.hangs).1 (by decide)
  have h2 := (c6_purge_reporting [delTask] (.completes 0 "")).2.1 "" (by decide) rfl
  have h3 := (c6_purge_reporting [delTask] (.completes 1 "boom")).2.2 1 "boom" (by decide) rfl
    (by decide)
  exact ⟨h1, h2.2.1, h3.2.2⟩

/-- C7: on a record that already carries every tag in `add_tags` and none of
the tags in `remove_tags`, the tag mutation of `batch_modify_tasks` (set
union followed by set difference) leaves the record's tag set unchanged, the
per-record result is a success entry with no error recorded, and the saved
record keeps the old tag set. -/
theorem c7_tag_idempotence (localOff : Int) (s : Store) (i : Int) (t : Task)
    (add rem : List String) (hfind : twGetById s i = some t)
    (hadd : ∀ x ∈ add, x ∈ t.tags) (hrem : ∀ x ∈ rem, x ∉ t.tags) :
    (applyMods localOff none none (some add) (some rem) none t).tags = t.tags
    ∧ (batch_modify_tasks localOff s (some [i]) {} none none (some add) (some rem) none).1.errors
        = []
    ∧ (batch_modify_tasks localOff s (some [i]) {} none none (some add) (some rem) none).1.success
        = true
    ∧ (∀ e ∈ (batch_modify_tasks localOff s (some [i]) {} none none (some add)
                (some rem) none).1.results, e.success = true)
    ∧ (batch_modify_tasks localOff s (some [i]) {} none none (some add) (some rem) none).2
        = storeSave s t.uuid
            (fun _ => applyMods localOff none none (some add) (some rem) none t) := by
  have hsub : add.toFinset ⊆ t.tags := fun x hx => hadd x (List.mem_toFinset.mp hx)
  have hdisj : Disjoint t.tags rem.toFinset := by
    rw [Finset.disjoint_right]
    intro a ha
    exact hrem a (List.mem_toFinset.mp ha)
  have hunion : t.tags ∪ add.toFinset = t.tags := Finset.union_eq_left.mpr hsub
  have hsdiff : t.tags \ rem.toFinset = t.tags := Finset.sdiff_eq_self_iff_disjoint.mpr hdisj
  have htags : (applyMods localOff none none (some add) (some rem) none t).tags = t.tags := by
    unfold applyMods
    simp only [truthyListOpt]
    by_cases ha : add.isEmpty <;> by_cases hb : rem.isEmpty <;>
      simp [ha, hb, hunion, hsdiff]
  have hsel : ([i].filterMap (twGetById s)) = [t] := by
    simp [hfind]
  refine ⟨htags, ?_, ?_, ?_, ?_⟩ <;>
    simp [batch_modify_tasks, truthyListOpt, hsel, modifyStep]

/-- C7 witness. -/
theorem c7_tag_idempotence_witness :
    (applyMods 0 none none (some ["alpha"]) (some ["zeta"]) none tTagged).tags = tTagged.tags
    ∧ (batch_modify_tasks 0 [tTagged] (some [3]) {} none none (some ["alpha"]) (some ["zeta"])
        none).1.success = true := by
  have h := c7_tag_idempotence 0 [tTagged] 3 tTagged ["alpha"] ["zeta"]
    (by decide) (by decide) (by decide)
  exact ⟨h.1, h.2.2.1⟩

/-- C9: in `get_summary`, a pending task whose (UTC-normalized) due instant
equals the evaluation instant is not counted overdue, while one strictly
before it is — the boundary comparison is strict. -/
theorem c9_overdue_strict (s : Store) (now : Int) (t : Task) (d : DT)
    (hp : t.status = "pending") (hd : t.due = some d) :
    (d.wall - d.tz.getD 0 = now →
       (get_summary (t :: s) now).overdue = (get_summary s now).overdue)
    ∧ (d.wall - d.tz.getD 0 < now →
       (get_summary (t :: s) now).overdue = (get_summary s now).overdue + 1) := by
  have hov : isOverdue now t = decide (d.wall - d.tz.getD 0 < now) := by
    unfold isOverdue
    rw [hd]
    cases h : d.tz <;>
      simp [h, DT.withTz, DT.astimezone, DT.instantUtc, sub_zero, add_zero]
  constructor
  · intro heq
    simp [get_summary, List.filter_cons, hp, hov, heq]
  · intro hlt
    simp [get_summary, List.filter_cons, hp, hov, hlt]

/-- C9 witness: due at instant 5, evaluated at 5 and at 6. -/
theorem c9_overdue_strict_witness :
    (get_summary [tDue5] 5).overdue = (get_summary [] 5).overdue
    ∧ (get_summary [tDue5] 6).overdue = (get_summary [] 6).overdue + 1 := by
  have h5 := (c9_overdue_strict [] 5 tDue5 ⟨5, some 0⟩ rfl rfl).1 (by decide)
  have h6 := (c9_overdue_strict [] 6 tDue5 ⟨5, some 0⟩ rfl rfl).2 (by decide)
  exact ⟨h5, h6⟩

/-- C10: with an explicit `task_ids` list, `batch_modify_tasks` silently
skips an id that resolves to no record: the whole result (response and
store) is the one obtained had the id never been supplied, no error entry
appears and the success flag stays true — unlike `batch_complete_by_ids`,
which records a not-found error for the same id. -/
theorem c10_batch_modify_skips_unresolved (localOff : Int) (s : Store) (ids1 ids2 : List Int)
    (bad : Int) (f : FilterSpec) (project priority : Option String)
    (add rem : Option (List String)) (due : Option (Option DT))
    (hbad : twGetById s bad = none) (hne : ids1 ++ ids2 ≠ []) :
    batch_modify_tasks localOff s (some (ids1 ++ bad :: ids2)) f project priority add rem due
      = batch_modify_tasks localOff s (some (ids1 ++ ids2)) f project priority add rem due
    ∧ (batch_modify_tasks localOff s (some (ids1 ++ bad :: ids2)) f project priority add rem
        due).1.errors = []
    ∧ (batch_modify_tasks localOff s (some (ids1 ++ bad :: ids2)) f project priority add rem
        due).1.success = true
    ∧ s!"Task {bad} not found" ∈ (batch_complete_by_ids s (ids1 ++ bad :: ids2)).1.errors := by
  have ht1 : truthyListOpt (some (ids1 ++ bad :: ids2)) = true := by
    simp [truthyListOpt]
  have ht2 : truthyListOpt (some (ids1 ++ ids2)) = true := by
    simp [truthyListOpt, hne]
  have hsel : (ids1 ++ bad :: ids2).filterMap (twGetById s)
      = (ids1 ++ ids2).filterMap (twGetById s) := by
    simp [List.filterMap_append, List.filterMap_cons, hbad]
  refine ⟨?_, ?_, ?_, ?_⟩
  · simp [batch_modify_tasks, ht1, ht2, hsel]
  · simp [batch_modify_tasks, ht1]
  · simp [batch_modify_tasks, ht1]
  · have herr := (completeFold_spec (ids1 ++ bad :: ids2) s [] []).1
    have hshow : (batch_complete_by_ids s (ids1 ++ bad :: ids2)).1.errors
        = ((ids1 ++ bad :: ids2).foldl completeStep (s, [], [])).2.2 := rfl
    rw [hshow, herr]
    simp only [List.nil_append]
    apply List.mem_map_of_mem
    apply List.mem_filter.mpr
    refine ⟨List.mem_append_right _ (List.mem_cons_self _ _), ?_⟩
    simp [resolvable, hbad]

/-- C10 witness. -/
theorem c10_batch_modify_skips_unresolved_witness :
    batch_modify_tasks 0 [taskA] (some [1, 99]) {} none none none none none
      = batch_modify_tasks 0 [taskA] (some [1]) {} none none none none none
    ∧ "Task 99 not found" ∈ (batch_complete_by_ids [taskA] [1, 99]).1.errors := by
  have h := c10_batch_modify_skips_unresolved 0 [taskA] [1] [] 99 {} none none none none none
    (by decide) (by decide)
  exact ⟨h.1, h.2.2.2⟩

/-- C8 (counterexample): a record whose `description` holds an int makes
`from_taskwarrior_task` raise a pydantic `ValidationError` (v2 performs no
int→str coercion) — a wrong-typed field does not degrade to the documented
default. -/
theorem c8_wrong_typed_description_raises :
    from_taskwarrior_task [("description", .vint 5)] = .error .validationError := rfl

/-- A normal return is exactly an `.ok` value. -/
theorem isOkE_iff {α : Type} (e : Except PyErr α) : isOkE e = true ↔ ∃ x, e = .ok x := by
  cases e <;> simp [isOkE]

/-- Bind on a normal return continues with the bound value. -/
theorem bindOk {α β : Type} (a : α) (f : α → Except PyErr β) :
    Bind.bind (Except.ok a) f = f a := rfl

/-- A field read through `safe_get` still passes its validator when every
present field does and the default does (the id `None`/`0` special case
lands on `None`, which `Optional[int]` accepts). -/
theorem fieldOk_safeGet (r : RawTask) (hr : ∀ kv ∈ r, fieldOk kv = true)
    (k : String) (d : PyVal) (hd : fieldOk (k, d) = true) :
    fieldOk (k, safeGet r k d) = true := by
  cases hfind : r.find? (fun kv => kv.1 == k) with
  | none =>
    simpa [safeGet, rawGet, hfind] using hd
  | some kv =>
    have hmem : kv ∈ r := List.mem_of_find?_eq_some hfind
    have hkeq : kv.1 = k := by
      have := List.find?_some hfind
      simpa using this
    have hok := hr kv hmem
    simp only [safeGet, rawGet, hfind]
    by_cases hid : (k == "id" && (kv.2 == PyVal.vnone || kv.2 == PyVal.vint 0)) = true
    · have hk : k = "id" := by
        have h1 := ((Bool.and_eq_true _ _).mp hid).1
        simpa using h1
      rw [if_pos hid]
      subst hk
      rfl
    · rw [if_neg hid]
      rw [← hkeq]
      simpa using hok

/-- C8 (amended): `from_taskwarrior_task` returns a TaskModel without
raising for every record whose present fields are well-typed; missing keys
degrade to the documented defaults (the empty record constructs the
all-defaults model), and a wrong-typed `tags`/`depends` degrades to `[]` —
but a wrong-typed scalar field raises a `ValidationError` instead of
degrading (see the counterexample). -/
theorem c8_from_raw_degrades (r : RawTask) (hr : ∀ kv ∈ r, fieldOk kv = true) :
    isOkE (from_taskwarrior_task r) = true
    ∧ from_taskwarrior_task [] = .ok {}
    ∧ from_taskwarrior_task [("tags", .vint 3), ("depends", .vfloat 1)] = .ok {} := by
  refine ⟨?_, rfl, rfl⟩
  have h1 : isOkE (vIntOpt (safeGet r "id" PyVal.vnone)) = true :=
    fieldOk_safeGet r hr "id" PyVal.vnone rfl
  have h2 : isOkE (vStrOpt (safeGet r "uuid" PyVal.vnone)) = true :=
    fieldOk_safeGet r hr "uuid" PyVal.vnone rfl
  have h3 : isOkE (vStr (safeGet r "description" (PyVal.vstr ""))) = true :=
    fieldOk_safeGet r hr "description" (PyVal.vstr "") rfl
  have h4 : isOkE (vStr (safeGet r "status" (PyVal.vstr "pending"))) = true :=
    fieldOk_safeGet r hr "status" (PyVal.vstr "pending") rfl
  have h5 : isOkE (vStrOpt (safeGet r "project" PyVal.vnone)) = true :=
    fieldOk_safeGet r hr "project" PyVal.vnone rfl
  have h6 : isOkE (vStrOpt (safeGet r "priority" PyVal.vnone)) = true :=
    fieldOk_safeGet r hr "priority" PyVal.vnone rfl
  have h7 : isOkE (vTagList (safeGet r "tags" (PyVal.vlistStr []))) = true :=
    fieldOk_safeGet r hr "tags" (PyVal.vlistStr []) rfl
  have h8 : isOkE (vFloat (safeGet r "urgency" (PyVal.vfloat 0))) = true :=
    fieldOk_safeGet r hr "urgency" (PyVal.vfloat 0) rfl
  have h9 : isOkE (vDtOpt (safeGet r "entry" PyVal.vnone)) = true :=
    fieldOk_safeGet r hr "entry" PyVal.vnone rfl
  have h10 : isOkE (vDtOpt (safeGet r "modified" PyVal.vnone)) = true :=
    fieldOk_safeGet r hr "modified" PyVal.vnone rfl
  have h11 : isOkE (vDtOpt (safeGet r "due" PyVal.vnone)) = true :=
    fieldOk_safeGet r hr "due" PyVal.vnone rfl
  have h12 : isOkE (vDtOpt (safeGet r "start" PyVal.vnone)) = true :=
    fieldOk_safeGet r hr "start" PyVal.vnone rfl
  have h13 : isOkE (vDtOpt (safeGet r "end" PyVal.vnone)) = true :=
    fieldOk_safeGet r hr "end" PyVal.vnone rfl
  have h14 : isOkE (vDtOpt (safeGet r "wait" PyVal.vnone)) = true :=
    fieldOk_safeGet r hr "wait" PyVal.vnone rfl
  have h15 : isOkE (vDtOpt (safeGet r "until" PyVal.vnone)) = true :=
    fieldOk_safeGet r hr "until" PyVal.vnone rfl
  have h16 : isOkE (vAnnots (safeGet r "annotations" (PyVal.vannList []))) = true :=
    fieldOk_safeGet r hr "annotations" (PyVal.vannList []) rfl
  have h17 : isOkE (vTagList (safeGet r "depends" (PyVal.vlistStr []))) = true :=
    fieldOk_safeGet r hr "depends" (PyVal.vlistStr []) rfl
  have h18 : isOkE (vStrOpt (safeGet r "recur" PyVal.vnone)) = true :=
    fieldOk_safeGet r hr "recur" PyVal.vnone rfl
  obtain ⟨x1, e1⟩ := (isOkE_iff _).mp h1
  obtain ⟨x2, e2⟩ := (isOkE_iff _).mp h2
  obtain ⟨x3, e3⟩ := (isOkE_iff _).mp h3
  obtain ⟨x4, e4⟩ := (isOkE_iff _).mp h4
  obtain ⟨x5, e5⟩ := (isOkE_iff _).mp h5
  obtain ⟨x6, e6⟩ := (isOkE_iff _).mp h6
  obtain ⟨x7, e7⟩ := (isOkE_iff _).mp h7
  obtain ⟨x8, e8⟩ := (isOkE_iff _).mp h8
  obtain ⟨x9, e9⟩ := (isOkE_iff _).mp h9
  obtain ⟨x10, e10⟩ := (isOkE_iff _).mp h10
  obtain ⟨x11, e11⟩ := (isOkE_iff _).mp h11
  obtain ⟨x12, e12⟩ := (isOkE_iff _).mp h12
  obtain ⟨x13, e13⟩ := (isOkE_iff _).mp h13
  obtain ⟨x14, e14⟩ := (isOkE_iff _).mp h14
  obtain ⟨x15, e15⟩ := (isOkE_iff _).mp h15
  obtain ⟨x16, e16⟩ := (isOkE_iff _).mp h16
  obtain ⟨x17, e17⟩ := (isOkE_iff _).mp h17
  obtain ⟨x18, e18⟩ := (isOkE_iff _).mp h18
  unfold from_taskwarrior_task
  simp only [e1, e2, e3, e4, e5, e6, e7, e8, e9, e10, e11, e12, e13, e14, e15, e16, e17, e18,
    bindOk]
  rfl

/-- C8 witness: a concrete well-typed record constructs. -/
theorem c8_from_raw_degrades_witness :
    isOkE (from_taskwarrior_task
      [("description", .vstr "write spec"), ("id", .vint 7), ("tags", .vsetStr ["a"])]) = true :=
  (c8_from_raw_degrades
    [("description", .vstr "write spec"), ("id", .vint 7), ("tags", .vsetStr ["a"])]
    (by decide)).1

end TaskwarriorNG
